import Mathlib

/-!
Shallow embedding of the asynchronous video-render pipeline of ace-step-ui:
the video-project routes (src/unnamed/part_001) and the render orchestrator
(src/server/src/services/videoRenderer.ts).  Database rows become records,
the SQL UPDATE statements become record updates, and the orchestrator's
sequential effects (database writes, filesystem staging, subprocess spawns)
become an explicit event trace parameterised by the outcomes of the external
steps (encoder availability, song lookup, audio staging, probe, encode,
promotion).  Strings that only ever get compared are Lean `String`s; error
messages, which get truncated character by character, are `List Char`.
-/

namespace AceStep

/-- The columns of a `video_projects` row that the render pipeline reads or
writes (schema as used throughout part_001 and videoRenderer.ts). -/
structure Row where
  state : String
  render_stage : Option String
  progress : Int
  video_url : Option String
  error_message : Option (List Char)
  render_job_id : Option String
deriving DecidableEq

/-- Embeds `updateProgress` (videoRenderer.ts lines 356-363): sets
`render_stage` and `progress = Math.min(100, progress)`. -/
def updateProgress (r : Row) (stage : String) (progress : Int) : Row :=
  { r with render_stage := some stage, progress := min 100 progress }

/-- Embeds `completeProject` (videoRenderer.ts lines 368-380): state
`completed`, stores the video url, progress 100, stage `completed`.  The
`error_message` column is not touched by the UPDATE. -/
def completeProject (r : Row) (videoUrl : String) : Row :=
  { r with state := "completed", video_url := some videoUrl, progress := 100,
           render_stage := some "completed" }

/-- Embeds `failProject` (videoRenderer.ts lines 385-396): state `failed`,
`error_message = errorMessage.substring(0, 500)`, stage `failed`,
progress 0. -/
def failProject (r : Row) (errorMessage : List Char) : Row :=
  { r with state := "failed", error_message := some (errorMessage.take 500),
           render_stage := some "failed", progress := 0 }

/-- Embeds the UPDATE of `POST /:id/render` (part_001 lines 179-184): state
`rendering`, fresh job id, stage `queued`, progress 0.  The `error_message`
column is not touched by the UPDATE. -/
def markRendering (r : Row) (jobId : String) : Row :=
  { r with state := "rendering", render_job_id := some jobId,
           render_stage := some "queued", progress := 0 }

/-- Outcome of one external step of the pipeline: success with a value, or a
thrown error carrying a diagnostic message. -/
inductive StepResult (α : Type) where
  | ok (val : α)
  | err (msg : List Char)
deriving DecidableEq

/-- The observable effects of one render request, in program order:
database writes, the encoder availability probe, working-directory
creation/removal, and the encoder subprocess spawn. -/
inductive Event where
  | dbMarkRendering (jobId : String)
  | checkAvail
  | dbProgress (stage : String) (progress : Int)
  | mkWorkDir
  | spawnEncoder
  | dbComplete (videoUrl : String)
  | dbFail (msg : List Char)
  | rmWorkDir
deriving DecidableEq

/-- Outcomes of the external collaborators for one run: whether
`checkFFmpegAvailable` succeeds, whether the song row exists, and the
results of working-directory creation, audio staging, `getAudioDuration`,
the ffmpeg encode, and the `renameSync` promotion. -/
structure Env where
  ffmpegAvailable : Bool
  songFound : Bool
  mkdir : StepResult Unit
  audio : StepResult Unit
  probe : StepResult ℚ
  encode : StepResult Unit
  promote : StepResult Unit
deriving DecidableEq

/-- The message of `failProject` when FFmpeg is unavailable
(videoRenderer.ts line 39). -/
def ffmpegUnavailableMsg : List Char :=
  String.toList "FFmpeg is not available on the server. Please install FFmpeg to enable video rendering."

/-- The message of `failProject` when the song row is missing
(videoRenderer.ts line 51). -/
def songNotFoundMsg : List Char := String.toList "Song not found"

/-- Embeds `renderVideo` (videoRenderer.ts lines 86-152) as its event trace.
Inside the try block: mkdir, progress `fetching_audio` 5, audio staging,
progress `analyzing_audio` 10, probe, progress `preparing_render` 15, the
encoder run, promotion, `completeProject`, then `rmSync` of the working
directory; the catch block runs `rmSync` and rethrows, and the rethrown
error is turned into `failProject` by the caller's catch handler
(videoRenderer.ts lines 61-64). -/
def renderVideoTrace (env : Env) (projectId : String) : List Event :=
  match env.mkdir with
  | StepResult.err m => [Event.rmWorkDir, Event.dbFail m]
  | StepResult.ok _ =>
    Event.mkWorkDir ::
    Event.dbProgress "fetching_audio" 5 ::
    match env.audio with
    | StepResult.err m => [Event.rmWorkDir, Event.dbFail m]
    | StepResult.ok _ =>
      Event.dbProgress "analyzing_audio" 10 ::
      match env.probe with
      | StepResult.err m => [Event.rmWorkDir, Event.dbFail m]
      | StepResult.ok _ =>
        Event.dbProgress "preparing_render" 15 ::
        Event.spawnEncoder ::
        match env.encode with
        | StepResult.err m => [Event.rmWorkDir, Event.dbFail m]
        | StepResult.ok _ =>
          match env.promote with
          | StepResult.err m => [Event.rmWorkDir, Event.dbFail m]
          | StepResult.ok _ =>
            [Event.dbComplete (String.append "/videos/" (String.append projectId ".mp4")),
             Event.rmWorkDir]

/-- Embeds `startVideoRender` (videoRenderer.ts lines 33-69) as its event
trace: the FFmpeg availability check first, `failProject` on unavailability,
then the song lookup, `failProject` if missing, then progress `starting` 0
and the `renderVideo` pipeline. -/
def startVideoRenderTrace (env : Env) (projectId : String) : List Event :=
  Event.checkAvail ::
  if env.ffmpegAvailable = false then [Event.dbFail ffmpegUnavailableMsg]
  else if env.songFound = false then [Event.dbFail songNotFoundMsg]
  else Event.dbProgress "starting" 0 :: renderVideoTrace env projectId

/-- The JSON body `POST /:id/render` answers with. -/
inductive RenderResponse where
  | errorNotFound
  | ok (jobId : Option String) (message : String)
deriving DecidableEq

/-- One render request's response together with the trace of effects it
triggers. -/
structure RequestOutcome where
  response : RenderResponse
  events : List Event
deriving DecidableEq

/-- Embeds the handler of `POST /:id/render` (part_001 lines 151-196):
missing project means 404 and nothing happens; a project already in state
`rendering` is answered with its stored `render_job_id` and the message
`Already rendering`, with no further effect; otherwise the row is updated
to `rendering` with the fresh job id and `startVideoRender` runs in the
background. -/
def renderRequest (proj : Option Row) (jobId : String) (env : Env)
    (projectId : String) : RequestOutcome :=
  match proj with
  | none => { response := RenderResponse.errorNotFound, events := [] }
  | some r =>
    if r.state = "rendering" then
      { response := RenderResponse.ok r.render_job_id "Already rendering",
        events := [] }
    else
      { response := RenderResponse.ok (some jobId) "Rendering started",
        events := Event.dbMarkRendering jobId :: startVideoRenderTrace env projectId }

/-- How each database event mutates the project row (the other events touch
no row). -/
def applyEvent (r : Row) : Event → Row
  | Event.dbMarkRendering j => markRendering r j
  | Event.dbProgress st p => updateProgress r st p
  | Event.dbComplete u => completeProject r u
  | Event.dbFail m => failProject r m
  | _ => r

/-- The row after a trace of events. -/
def runEvents (r : Row) (es : List Event) : Row :=
  es.foldl applyEvent r

/-- Whether the project's working directory exists after a trace of events:
created by `mkWorkDir`, removed by `rmWorkDir`. -/
def dirExists (es : List Event) : Bool :=
  es.foldl
    (fun b e =>
      match e with
      | Event.mkWorkDir => true
      | Event.rmWorkDir => false
      | _ => b)
    false

/-- Recognises the `rendering`-transition event. -/
def isMarkRendering : Event → Bool
  | Event.dbMarkRendering _ => true
  | _ => false

/-- Recognises the availability-check event. -/
def isCheckAvail : Event → Bool
  | Event.checkAvail => true
  | _ => false

/-- Recognises the working-directory-creation event. -/
def isMkWorkDir : Event → Bool
  | Event.mkWorkDir => true
  | _ => false

/-- Recognises the encoder-spawn event. -/
def isSpawnEncoder : Event → Bool
  | Event.spawnEncoder => true
  | _ => false

/-- Whether some availability check happens strictly before the first
transition to `rendering` in a trace. -/
def checkBeforeRendering (es : List Event) : Bool :=
  (es.takeWhile (fun e => !isMarkRendering e)).any isCheckAvail

/-- JavaScript `Math.round` on an exact rational: round half away from zero
is round half up for the non-negative values that arise here. -/
def jsRound (q : ℚ) : ℤ := ⌊q + 1 / 2⌋

/-- Elapsed seconds of a parsed `time=HH:MM:SS.ff` diagnostic timestamp
(videoRenderer.ts lines 316-319): `hours*3600 + minutes*60 + seconds`. -/
def timeToSeconds (hours minutes : ℕ) (seconds : ℚ) : ℚ :=
  (hours : ℚ) * 3600 + (minutes : ℚ) * 60 + seconds

/-- The handler takes the most recent `time=` match of the diagnostic
buffer: `timeMatch[timeMatch.length - 1]` (videoRenderer.ts line 313). -/
def lastMatch (ms : List (ℕ × ℕ × ℚ)) : Option (ℕ × ℕ × ℚ) :=
  ms.getLast?

/-- Embeds `Math.min(95, Math.round((currentTime / duration) * 100))`
(videoRenderer.ts line 320). -/
def encodeRawPct (currentTime duration : ℚ) : ℤ :=
  min 95 (jsRound (currentTime / duration * 100))

/-- Embeds the value handed to `updateProgress` while encoding:
`15 + Math.round(progress * 0.8)` (videoRenderer.ts line 323). -/
def encodeStoredPct (currentTime duration : ℚ) : ℤ :=
  15 + jsRound ((encodeRawPct currentTime duration : ℚ) * (4 / 5))

/-- Embeds the rate limit of the stderr progress handler: a write happens
only when `now - lastProgressUpdate > 500` (videoRenderer.ts line 307). -/
def shouldPersist (now lastProgressUpdate : ℤ) : Bool :=
  decide (500 < now - lastProgressUpdate)

/-- The request body of `POST /:id/progress` (part_001 line 369): each field
may be absent. -/
structure ProgressBody where
  stage : Option String
  progress : Option Int
  errorMessage : Option (List Char)
deriving DecidableEq

/-- JavaScript truthiness of an optional string: absent and the empty string
are falsy. -/
def strTruthy (o : Option String) : Bool :=
  match o with
  | none => false
  | some s => if s = "" then false else true

/-- JavaScript truthiness of an optional message. -/
def charsTruthy (o : Option (List Char)) : Bool :=
  match o with
  | none => false
  | some m => if m = [] then false else true

/-- JavaScript `progress >= 100` where an absent field compares false. -/
def numGE100 (o : Option Int) : Bool :=
  match o with
  | none => false
  | some p => if 100 ≤ p then true else false

/-- JavaScript `stage || null`. -/
def orNullStr (o : Option String) : Option String :=
  if strTruthy o then o else none

/-- JavaScript `errorMessage || null`. -/
def orNullChars (o : Option (List Char)) : Option (List Char) :=
  if charsTruthy o then o else none

/-- JavaScript `progress || 0`. -/
def orZero (o : Option Int) : Int :=
  match o with
  | none => 0
  | some p => if p = 0 then 0 else p

/-- Embeds the handler of `POST /:id/progress` (part_001 lines 365-407):
state `failed` if `errorMessage` is truthy, else `completed` if
`progress >= 100`, else `rendering`; then one UPDATE storing the state and
`stage || null`, `progress || 0`, `errorMessage || null`. -/
def progressPush (r : Row) (b : ProgressBody) : Row :=
  let st :=
    if charsTruthy b.errorMessage then "failed"
    else if numGE100 b.progress then "completed"
    else "rendering"
  { r with state := st,
           render_stage := orNullStr b.stage,
           progress := orZero b.progress,
           error_message := orNullChars b.errorMessage }

/-- The visual-configuration fields that background selection reads
(videoRenderer.ts lines 237-249). -/
structure VisualConfig where
  backgroundType : String
  customImage : Option String
deriving DecidableEq

/-- The background input the encoder command is built around. -/
inductive Background where
  | customImage (src : String)
  | coverArt (src : String)
  | gradientFill (color : String) (durationSeconds : ℚ)
deriving DecidableEq

/-- Embeds the background branch of `createSimpleVideo` (videoRenderer.ts
lines 237-249): the custom image when `backgroundType === 'image' &&
config.customImage`, else the song's `cover_url` when truthy, else a
`color=c=#1a1a2e:...:d=duration` lavfi source. -/
def selectBackground (cfg : VisualConfig) (coverUrl : Option String)
    (duration : ℚ) : Background :=
  if cfg.backgroundType = "image" ∧ strTruthy cfg.customImage = true then
    Background.customImage (cfg.customImage.getD "")
  else if strTruthy coverUrl = true then
    Background.coverArt (coverUrl.getD "")
  else
    Background.gradientFill "#1a1a2e" duration

/-- A concrete project row used by concrete-input theorems. -/
def row0 : Row :=
  { state := "not_started", render_stage := none, progress := 0,
    video_url := none, error_message := none, render_job_id := none }

/-- A concrete environment whose availability check fails. -/
def env0 : Env :=
  { ffmpegAvailable := false, songFound := true,
    mkdir := StepResult.ok (), audio := StepResult.ok (),
    probe := StepResult.ok 100, encode := StepResult.ok (),
    promote := StepResult.ok () }

/-- A concrete short error message. -/
def msg0 : List Char := String.toList "boom"

/-- A concrete project row that is already rendering, holding a job handle. -/
def row1 : Row :=
  { state := "rendering", render_stage := some "encoding", progress := 42,
    video_url := none, error_message := none,
    render_job_id := some "render_p1_123" }

/-- Claim C1: a render request on a project already in state `rendering`
answers with the stored `render_job_id` and the message `Already rendering`,
triggers no effect at all (no pipeline, no encoder spawn), and leaves the
row — state, stage and progress included — unchanged. -/
theorem c1_duplicate_render_is_noop (r : Row) (jobId projectId : String)
    (env : Env) (h : r.state = "rendering") :
    (renderRequest (some r) jobId env projectId).response
        = RenderResponse.ok r.render_job_id "Already rendering"
      ∧ (renderRequest (some r) jobId env projectId).events = []
      ∧ runEvents r (renderRequest (some r) jobId env projectId).events = r := by
  simp [renderRequest, h, runEvents]

/-- Concrete instance of C1: a rendering row with job handle
`render_p1_123` answers a duplicate request with that handle and stays
unchanged. -/
theorem c1_duplicate_render_is_noop_witness :
    (renderRequest (some row1) "job9" env0 "p1").response
        = RenderResponse.ok (some "render_p1_123") "Already rendering"
      ∧ (renderRequest (some row1) "job9" env0 "p1").events = []
      ∧ runEvents row1 (renderRequest (some row1) "job9" env0 "p1").events = row1 :=
  c1_duplicate_render_is_noop row1 "job9" "p1" env0 rfl

/-- Claim C2: the encode-step progress callback parses the most recent
`time=` diagnostic timestamp, converts it to seconds, divides by the probed
duration, and stores `15 + round(0.8 * min(95, round(ratio * 100)))` under
a once-per-500ms rate limit — but because the 95 cap is applied before the
0.8 scale, the stored progress never exceeds 91, so the advertised [15, 95]
sub-range is not covered: at ratio 1 (timestamp 00:01:40.00 over a 100s
probe) the stored value is 91, not 95. -/
theorem c2_encode_progress_capped_below_95 :
    (∀ currentTime duration : ℚ, encodeStoredPct currentTime duration ≤ 91)
      ∧ encodeStoredPct (timeToSeconds 0 1 40) 100 = 91
      ∧ timeToSeconds 0 1 40 = 100
      ∧ lastMatch [(0, 0, (30 : ℚ)), (0, 1, 40)] = some (0, 1, 40)
      ∧ shouldPersist 1000 400 = true
      ∧ shouldPersist 1000 600 = false := by
  refine ⟨fun ct dur => ?_, ?_, ?_, by decide, by decide, by decide⟩
  · unfold encodeStoredPct
    have hp : encodeRawPct ct dur ≤ 95 := min_le_left _ _
    have hq : ((encodeRawPct ct dur : ℤ) : ℚ) ≤ 95 := by exact_mod_cast hp
    have h1 : ((encodeRawPct ct dur : ℤ) : ℚ) * (4 / 5) + 1 / 2 ≤ 153 / 2 := by
      nlinarith
    have h2 : jsRound (((encodeRawPct ct dur : ℤ) : ℚ) * (4 / 5)) ≤ 76 := by
      unfold jsRound
      calc ⌊((encodeRawPct ct dur : ℤ) : ℚ) * (4 / 5) + 1 / 2⌋
          ≤ ⌊(153 / 2 : ℚ)⌋ := Int.floor_le_floor h1
        _ = 76 := by rw [Int.floor_eq_iff]; norm_num
    omega
  · unfold timeToSeconds encodeStoredPct encodeRawPct jsRound
    norm_num
  · norm_num [timeToSeconds]

/-- Counterexample to claim C3 as stated: on a concrete request (project
not yet rendering, encoder unavailable) the trace contains both the
availability check and the transition to `rendering`, yet no availability
check precedes that transition — the route flips the row to `rendering`
first and only then the background task probes the encoder. -/
theorem c3_check_after_rendering_counterexample :
    checkBeforeRendering (renderRequest (some row0) "job1" env0 "p1").events = false
      ∧ (renderRequest (some row0) "job1" env0 "p1").events.any isCheckAvail = true
      ∧ (renderRequest (some row0) "job1" env0 "p1").events.any isMarkRendering = true := by
  decide

/-- Claim C3 amended: the route transitions the project to `rendering`
first; the background task then runs the availability check, and an
unavailable encoder ends the run in terminal state `failed` carrying the
install-hint message, with no working directory created and no encoder
subprocess spawned. -/
theorem c3_rendering_before_check (r : Row) (jobId projectId : String)
    (env : Env) (h1 : r.state ≠ "rendering")
    (h2 : env.ffmpegAvailable = false) :
    (renderRequest (some r) jobId env projectId).events
        = [Event.dbMarkRendering jobId, Event.checkAvail,
           Event.dbFail ffmpegUnavailableMsg]
      ∧ (runEvents r (renderRequest (some r) jobId env projectId).events).state
          = "failed"
      ∧ (runEvents r (renderRequest (some r) jobId env projectId).events).error_message
          = some ffmpegUnavailableMsg
      ∧ (renderRequest (some r) jobId env projectId).events.any isMkWorkDir = false
      ∧ (renderRequest (some r) jobId env projectId).events.any isSpawnEncoder = false := by
  have hlen : ffmpegUnavailableMsg.length ≤ 500 := by decide
  simp [renderRequest, startVideoRenderTrace, h1, h2, runEvents, applyEvent,
    markRendering, failProject, isMkWorkDir, isSpawnEncoder,
    List.take_of_length_le hlen]

/-- Concrete instance of the amended C3: a fresh project with an
unavailable encoder ends `failed` with the install hint, after the
`rendering` transition and the check, with no directory or subprocess. -/
theorem c3_rendering_before_check_witness :
    (renderRequest (some row0) "job1" env0 "p1").events
        = [Event.dbMarkRendering "job1", Event.checkAvail,
           Event.dbFail ffmpegUnavailableMsg]
      ∧ (runEvents row0 (renderRequest (some row0) "job1" env0 "p1").events).state
          = "failed"
      ∧ (runEvents row0 (renderRequest (some row0) "job1" env0 "p1").events).error_message
          = some ffmpegUnavailableMsg
      ∧ (renderRequest (some row0) "job1" env0 "p1").events.any isMkWorkDir = false
      ∧ (renderRequest (some row0) "job1" env0 "p1").events.any isSpawnEncoder = false :=
  c3_rendering_before_check row0 "job1" "p1" env0 (by decide) rfl

/-- Claim C4: after every render request — any project row, any combination
of step outcomes (success, or failure at directory creation, audio staging,
probe, encode or promotion) — the job's working directory does not exist:
the success path removes it after promotion and the catch path removes it
before rethrowing. -/
theorem c4_workdir_cleanup (proj : Option Row) (jobId projectId : String)
    (env : Env) :
    dirExists (renderRequest proj jobId env projectId).events = false := by
  cases proj with
  | none => rfl
  | some r =>
    by_cases hr : r.state = "rendering" <;>
      simp only [renderRequest, startVideoRenderTrace, renderVideoTrace, hr,
        if_pos, if_neg, ite_true, ite_false] <;>
      first
        | rfl
        | (cases env.ffmpegAvailable <;> cases env.songFound <;>
            cases env.mkdir <;> cases env.audio <;> cases env.probe <;>
            cases env.encode <;> cases env.promote <;>
            simp_all [dirExists, renderVideoTrace])

/-- Claim C5: `failProject` stores the message truncated to the
500-character cap — the stored message is exactly the first 500 characters,
its length is `min 500` of the input length (so exactly 500 for longer
inputs), and an input of at most 500 characters is stored unchanged. -/
theorem c5_failProject_truncates (r : Row) (msg : List Char) :
    (failProject r msg).error_message = some (msg.take 500)
      ∧ (msg.take 500).length = min 500 msg.length
      ∧ (msg.length ≤ 500 → msg.take 500 = msg) :=
  ⟨rfl, msg.length_take 500, fun h => List.take_of_length_le h⟩

/-- Counterexample to claim C6 as stated: a pushed body whose
`errorMessage` field is present but empty does not produce state `failed`
(JavaScript truthiness ignores it), refuting the claim that any present
`errorMessage` forces `failed`. -/
theorem c6_empty_error_counterexample :
    (progressPush row0
        { stage := some "encoding", progress := some 100,
          errorMessage := some [] }).state ≠ "failed"
      ∧ (Option.isSome (ProgressBody.errorMessage
          { stage := some "encoding", progress := some 100,
            errorMessage := some [] })) = true := by
  decide

/-- Claim C6 amended: the progress push stores state `failed` exactly when
a non-empty `errorMessage` is pushed, otherwise `completed` exactly when
the pushed progress is at least 100, otherwise `rendering`; a pushed
progress value is stored as is, and non-empty pushed stage and error
message are stored as is (absent or empty fields are normalised to
null / 0 by the `|| null` and `|| 0` defaults). -/
theorem c6_progress_push_semantics (r : Row) (b : ProgressBody) :
    ((progressPush r b).state = "failed"
        ↔ ∃ m : List Char, b.errorMessage = some m ∧ m ≠ [])
      ∧ (charsTruthy b.errorMessage = false →
          ((progressPush r b).state = "completed"
            ↔ ∃ p : Int, b.progress = some p ∧ 100 ≤ p))
      ∧ (charsTruthy b.errorMessage = false → numGE100 b.progress = false →
          (progressPush r b).state = "rendering")
      ∧ (∀ p : Int, b.progress = some p → (progressPush r b).progress = p)
      ∧ (∀ m : List Char, b.errorMessage = some m → m ≠ [] →
          (progressPush r b).error_message = some m)
      ∧ (∀ s : String, b.stage = some s → s ≠ "" →
          (progressPush r b).render_stage = some s) := by
  constructor
  · cases hb : b.errorMessage with
    | none =>
      simp [progressPush, charsTruthy, hb]
      try (split <;> decide)
    | some m =>
      by_cases hm : m = [] <;>
        simp [progressPush, charsTruthy, hb, hm] <;>
        split <;> simp_all
  constructor
  · intro he
    cases hp : b.progress with
    | none =>
      simp [progressPush, he, numGE100, hp]
    | some p =>
      by_cases h100 : 100 ≤ p <;>
        simp [progressPush, he, numGE100, hp, h100]
  constructor
  · intro he hp
    simp [progressPush, he, hp]
  constructor
  · intro p hp
    by_cases hz : p = 0 <;> simp [progressPush, orZero, hp, hz]
  constructor
  · intro m hm hne
    simp [progressPush, orNullChars, charsTruthy, hm, hne]
  · intro s hs hne
    simp [progressPush, orNullStr, strTruthy, hs, hne]

/-- Counterexample to claim C7 as stated: `updateProgress` with -5 stores
-5, which is outside [0, 100] — the store only caps from above. -/
theorem c7_negative_progress_counterexample :
    ¬(0 ≤ (updateProgress row0 "encoding" (-5)).progress) := by
  decide

/-- Claim C7 amended: `updateProgress` clamps only from above — inputs of
at least 100 are stored as 100, any input at most 100 (negative values
included) is stored unchanged; the stored value lies in [0, 100] exactly
when the input is non-negative. -/
theorem c7_progress_clamp_upper_only (r : Row) (stage : String) (p : Int) :
    (100 ≤ p → (updateProgress r stage p).progress = 100)
      ∧ (p ≤ 100 → (updateProgress r stage p).progress = p)
      ∧ (0 ≤ p → 0 ≤ (updateProgress r stage p).progress
          ∧ (updateProgress r stage p).progress ≤ 100) := by
  refine ⟨fun h => ?_, fun h => ?_, fun h => ⟨?_, ?_⟩⟩ <;>
    simp only [updateProgress] <;> omega

/-- Counterexample to claim C8 as stated: fail a fresh project, retry
(the render route's transition back to `rendering`), then complete — both
intermediate and final rows still carry the old error message although
their states are `rendering` and `completed`. -/
theorem c8_stale_error_counterexample :
    (markRendering (failProject row0 msg0) "job2").state = "rendering"
      ∧ (markRendering (failProject row0 msg0) "job2").error_message ≠ none
      ∧ (completeProject (markRendering (failProject row0 msg0) "job2")
          "/videos/p1.mp4").state = "completed"
      ∧ (completeProject (markRendering (failProject row0 msg0) "job2")
          "/videos/p1.mp4").error_message ≠ none := by
  decide

/-- Claim C8 amended: `failProject` is the only transition that writes the
error message; neither `completeProject` nor the retry transition to
`rendering` clears it, so a project that failed once keeps the stale
message through later `rendering` and `completed` states. -/
theorem c8_error_message_persistence (r : Row) (url jobId : String)
    (msg : List Char) :
    (completeProject r url).error_message = r.error_message
      ∧ (markRendering r jobId).error_message = r.error_message
      ∧ (failProject r msg).error_message = some (msg.take 500)
      ∧ (failProject r msg).state = "failed" :=
  ⟨rfl, rfl, rfl, rfl⟩

/-- Counterexample to claim C9 as stated: with `backgroundType` set to
`gradient`, a supplied custom image is ignored and the song's cover is
used, refuting the unconditional custom-image-first precedence. -/
theorem c9_custom_image_ignored_counterexample :
    selectBackground
        { backgroundType := "gradient", customImage := some "custom.png" }
        (some "cover.jpg") 100 = Background.coverArt "cover.jpg"
      ∧ selectBackground
        { backgroundType := "gradient", customImage := some "custom.png" }
        (some "cover.jpg") 100 ≠ Background.customImage "custom.png" := by
  decide

/-- Claim C9 amended: the custom image is used only when `backgroundType`
is `image` and the custom image is supplied non-empty; otherwise a
non-empty song cover is used; otherwise the procedurally generated
gradient fill, whose duration is the probed audio duration. -/
theorem c9_background_precedence (cfg : VisualConfig)
    (coverUrl : Option String) (d : ℚ) :
    (∀ s : String, cfg.backgroundType = "image" → cfg.customImage = some s →
        s ≠ "" → selectBackground cfg coverUrl d = Background.customImage s)
      ∧ (∀ c : String,
          (cfg.backgroundType ≠ "image" ∨ strTruthy cfg.customImage = false) →
          coverUrl = some c → c ≠ "" →
          selectBackground cfg coverUrl d = Background.coverArt c)
      ∧ ((cfg.backgroundType ≠ "image" ∨ strTruthy cfg.customImage = false) →
          strTruthy coverUrl = false →
          selectBackground cfg coverUrl d = Background.gradientFill "#1a1a2e" d) := by
  refine ⟨fun s hbt hci hne => ?_, fun c hfall hcov hne => ?_,
    fun hfall hcov => ?_⟩
  · have ht : strTruthy (some s) = true := by simp [strTruthy, hne]
    simp [selectBackground, hbt, hci, ht]
  · have hnot : ¬(cfg.backgroundType = "image"
        ∧ strTruthy cfg.customImage = true) := by
      rcases hfall with h | h
      · exact fun hc => h hc.1
      · intro hc
        rw [h] at hc
        exact absurd hc.2 (by simp)
    have hcv : strTruthy (some c) = true := by simp [strTruthy, hne]
    simp [selectBackground, hnot, hcov, hcv]
  · have hnot : ¬(cfg.backgroundType = "image"
        ∧ strTruthy cfg.customImage = true) := by
      rcases hfall with h | h
      · exact fun hc => h hc.1
      · intro hc
        rw [h] at hc
        exact absurd hc.2 (by simp)
    simp [selectBackground, hnot, hcov]

/-- Claim C10: `failProject` always resets the stored progress to 0 and the
render stage to `failed` (with state `failed`), whatever progress had
accumulated, so a polling client never sees a failed project with partial
progress. -/
theorem c10_fail_resets_progress (r : Row) (msg : List Char) :
    (failProject r msg).progress = 0
      ∧ (failProject r msg).render_stage = some "failed"
      ∧ (failProject r msg).state = "failed" :=
  ⟨rfl, rfl, rfl⟩

end AceStep
